import Mathlib

/-!
Verification of the Plank model (`src/js/common/model/Plank.js`) of the
MencGames (Balancing Act) repository.

Shallow embedding conventions:
* JavaScript numbers are modelled as rationals (`ℚ`).  The transcendental
  library functions (`Math.sin`, `Math.cos`, `Math.tan`, `Math.asin`,
  `Math.sqrt`, used through `DOT.Vector2.rotated`, `DOT.Matrix3.rotationAround`
  and `Vector2.distance`) cannot be represented exactly on `ℚ`; the whole
  development is therefore parametric in a `JsMath` record carrying them.
  Theorems hold for every instantiation, and concrete evaluations instantiate
  it with simple functions, adding explicit hypotheses (such as `cos 0 = 1`)
  where a concrete value of a transcendental is actually used.
* `AXON.ObservableArray` (external library, not in the repository) is modelled
  as a list with JavaScript `Array` method semantics (`push`, `splice`,
  `indexOf`, `slice`, `forEach`).
* Mass objects are mutable and shared, so they live in a heap
  (`Plank.masses`, keyed by an `id` modelling JS object identity) and the
  plank's `massesOnSurface` list stores ids (references).
* JS quirks that the source relies on are modelled explicitly and are
  documented at the definition that uses them (comparisons with `undefined`
  and `NaN`, `Array.prototype.splice` returning the removed elements,
  bracket assignment with an object key, `_.without` with a value of a
  foreign type).
-/

-- Batteries seals the rational arithmetic definitions; reopen them so that
-- closed evaluations of the model reduce (`decide`).
unseal Rat.add Rat.mul Rat.inv Rat.sub

/-- A 2D vector, as `DOT.Vector2` (components only; methods are modelled as
functions below). -/
structure Vector2 where
  x : ℚ
  y : ℚ
deriving DecidableEq, Repr

/-- A mass object, as consumed by the plank.  `id` models JS object identity
(`===`); `mass` is the mass value in kg; `height` is the model height used by
`ImageMass.getMiddlePoint` (`src/js/common/model/ImageMass.js`). -/
structure Mass where
  id : ℕ
  mass : ℚ
  position : Vector2
  rotationAngle : ℚ
  onPlank : Bool
  userControlled : Bool
  height : ℚ
deriving DecidableEq, Repr

/-- An entry of the `massDistancePairs` array, as read by
`getMassDistanceFromCenter` and `removeMassFromSurface` (fields `.mass`
(a reference, modelled by id) and `.distance`). -/
structure MassDistancePair where
  mass : ℕ
  distance : ℚ
deriving DecidableEq, Repr

/-- Modelled from the spec: `MassForceVector` (its source file is not in
`src/`) "tracks a force indicator tied to one attached mass; recomputed
whenever mass positions change".  Only the link to its mass is observable to
the plank logic; `update()` refreshes derived display state and is modelled as
preserving the mass link. -/
structure MassForceVector where
  mass : ℕ
deriving DecidableEq, Repr

/-- The transcendental functions of `Math` / `DOT` that the source uses.
They cannot be represented exactly on `ℚ`, so the embedding is parametric in
them. -/
structure JsMath where
  sin : ℚ → ℚ
  cos : ℚ → ℚ
  tan : ℚ → ℚ
  asin : ℚ → ℚ
  sqrt : ℚ → ℚ

/-- The plank state: the `PropertySet` fields, the externally visible arrays,
the internal variables of the constructor, and the heap of mass objects the
plank can reach.  `massDistanceObjProps` models the string-keyed properties
created on the `massDistancePairs` array object by the bracket assignment
`this.massDistancePairs[ mass ] = ...` (the key is the mass coerced to a
string, which for object arguments is always `"[object Object]"`); these
properties are distinct from the array's elements.  `shapePoints` /
`unrotatedShapePoints` model the `KITE.Shape` outline by its vertices (only
the bounds of the shape are consumed).  `bottomCenterPoint` is the property
written by `updatePlank`; it starts `undefined` (modelled `none`). -/
structure Plank where
  bottomCenterLocation : Vector2
  tiltAngle : ℚ
  userControlled : Bool
  pivotPoint : Vector2
  columnState : String
  angularVelocity : ℚ
  currentNetTorque : ℚ
  maxTiltAngle : ℚ
  massesOnSurface : List ℕ
  forceVectors : List MassForceVector
  massDistancePairs : List MassDistancePair
  massDistanceObjProps : List (String × ℚ)
  unrotatedShapePoints : List Vector2
  shapePoints : List Vector2
  bottomCenterPoint : Option Vector2
  turningRight : Bool
  masses : List Mass
deriving DecidableEq, Repr

-- Constants of Plank.js.

def PLANK_LENGTH : ℚ := 9 / 2

def PLANK_THICKNESS : ℚ := 1 / 20

def PLANK_MASS : ℚ := 75

def INTER_SNAP_TO_MARKER_DISTANCE : ℚ := 1 / 4

/-- `Math.floor( PLANK_LENGTH / INTER_SNAP_TO_MARKER_DISTANCE - 1 )`. -/
def NUM_SNAP_TO_LOCATIONS : ℕ := (Int.floor (PLANK_LENGTH / INTER_SNAP_TO_MARKER_DISTANCE - 1)).toNat

def MOMENT_OF_INERTIA : ℚ := PLANK_MASS * (PLANK_LENGTH * PLANK_LENGTH + PLANK_THICKNESS * PLANK_THICKNESS) / 12

-- String literals of the source (named so that no string literal directly
-- follows a function name at use sites).

def strNone : String := "none"

def strObjectKey : String := "[object Object]"

def strInvalidDistance : String := "Error: Warning: Attempt to add mass at invalid distance from center"

def strAssertAbovePlank : String := "AssertionError: this.isPointAbovePlank( mass.position )"

def strNoRemoveMass : String := "TypeError: this.removeMass is not a function"

def strUndefinedMass : String := "TypeError: cannot read property mass of undefined"

-- JavaScript semantics helpers.

/-- JS `ToInteger` truncation (toward zero), used by `Array.prototype.splice`
on a fractional start index. -/
def jsToIntTrunc (q : ℚ) : ℤ := if 0 ≤ q then Int.floor q else -Int.floor (-q)

/-- `Array.prototype.splice( start, deleteCount )`: returns the pair
(array after in-place removal, removed elements).  A negative `start` counts
from the end, clamped at 0. -/
def jsSplice (l : List α) (start : ℤ) (delCount : ℕ) : List α × List α :=
  let s : ℕ := (if start < 0 then max ((l.length : ℤ) + start) 0 else min start (l.length : ℤ)).toNat
  (l.take s ++ l.drop (s + delCount), (l.drop s).take delCount)

/-- `Array.prototype.indexOf`: first index of the element, `-1` when absent. -/
def jsIndexOf [BEq α] (l : List α) (a : α) : ℤ :=
  match l.findIdx? (fun b => b == a) with
  | some i => (i : ℤ)
  | Option.none => -1

/-- A JS array coerced to a number (as happens when an array appears as an
operand of `<`): the empty array coerces via `""` to `0`; a non-empty array of
objects coerces via its string form to `NaN` (modelled `none`). -/
def arrayAsNumber (l : List α) : Option ℚ :=
  if l.isEmpty then some 0 else Option.none

/-- JS `<` against a possibly-`NaN` number: every comparison with `NaN` is
false. -/
def jsLtNum (a : ℚ) (b : Option ℚ) : Bool :=
  match b with
  | some q => decide (a < q)
  | Option.none => false

/-- JS `>=` against `undefined` (`undefined` converts to `NaN`, and every
comparison with `NaN` is false). -/
def jsGeUndefined (_ : ℚ) : Bool := false

/-- `_.without( locations, massObject )` removes the elements that are `===`
to the given value.  The source passes a `Mass` object while the list holds
`Vector2` objects; two objects of different identity are never `===`, so
nothing is removed.  (This is the occupied-slot bug of
`getOpenMassDroppedLocation`: the source removes the mass, not the slot.) -/
def jsWithoutMass (l : List Vector2) (_ : ℕ) : List Vector2 := l

/-- Assignment to a string-keyed property of an object (here: of the
`massDistancePairs` array object), replacing an existing entry or adding
one. -/
def setProp (l : List (String × ℚ)) (k : String) (v : ℚ) : List (String × ℚ) :=
  if l.any (fun kv => kv.1 == k) then
    l.map (fun kv => if kv.1 == k then (k, v) else kv)
  else l ++ [(k, v)]

-- Geometry helpers (DOT.Vector2 / DOT.Matrix3).

def vadd (u v : Vector2) : Vector2 := ⟨u.x + v.x, u.y + v.y⟩

def vsub (u v : Vector2) : Vector2 := ⟨u.x - v.x, u.y - v.y⟩

/-- `DOT.Vector2.rotated( angle )`: rotation about the origin. -/
def rotated (M : JsMath) (v : Vector2) (angle : ℚ) : Vector2 :=
  ⟨v.x * M.cos angle - v.y * M.sin angle, v.x * M.sin angle + v.y * M.cos angle⟩

/-- `DOT.Matrix3.rotationAround( angle, x, y )` applied to a point. -/
def rotAround (M : JsMath) (angle : ℚ) (c p : Vector2) : Vector2 :=
  vadd c (rotated M (vsub p c) angle)

/-- `DOT.Vector2.distance`: Euclidean distance, via `Math.sqrt`. -/
def jsDistance (M : JsMath) (u v : Vector2) : ℚ :=
  M.sqrt ((u.x - v.x) * (u.x - v.x) + (u.y - v.y) * (u.y - v.y))

def boundsMinX (l : List Vector2) : ℚ :=
  match l with
  | [] => 0
  | p :: ps => ps.foldl (fun a q => min a q.x) p.x

def boundsMaxX (l : List Vector2) : ℚ :=
  match l with
  | [] => 0
  | p :: ps => ps.foldl (fun a q => max a q.x) p.x

def boundsMaxY (l : List Vector2) : ℚ :=
  match l with
  | [] => 0
  | p :: ps => ps.foldl (fun a q => max a q.y) p.y

-- Heap helpers (references to mass objects are always valid in the source;
-- the defaults of the getters below are unreachable for such states).

def massById (p : Plank) (id : ℕ) : Option Mass :=
  p.masses.find? (fun m => m.id == id)

def massValue (p : Plank) (id : ℕ) : ℚ :=
  ((massById p id).map Mass.mass).getD 0

def massPosition (p : Plank) (id : ℕ) : Vector2 :=
  ((massById p id).map Mass.position).getD ⟨0, 0⟩

/-- `ImageMass.getMiddlePoint()`: the mass position raised by half the mass
height (`src/js/common/model/ImageMass.js`). -/
def getMiddlePoint (p : Plank) (id : ℕ) : Vector2 :=
  let pos := massPosition p id
  let h := (((massById p id).map Mass.height).getD 0)
  ⟨pos.x, pos.y + h / 2⟩

/-- Mutate the mass object with the given identity (all references observe the
update). -/
def updateMass (p : Plank) (id : ℕ) (f : Mass → Mass) : Plank :=
  { p with masses := p.masses.map (fun m => if m.id == id then f m else m) }

-- Plank methods (in source order where possible).

/-- `getPlankSurfaceCenter()` (lines 359-364).  The source builds
`new Vector2( this.bottomCenterLocation )`: DOT's `Vector2` takes two number
arguments, so this Java-style copy construction is modelled as a copy of the
vector (the external library call is modelled by its evident denotation), then
adds `(0, PLANK_THICKNESS)` rotated by the tilt angle. -/
def getPlankSurfaceCenter (M : JsMath) (p : Plank) : Vector2 :=
  vadd p.bottomCenterLocation (rotated M ⟨0, PLANK_THICKNESS⟩ p.tiltAngle)

/-- `getSurfaceYValue( xValue )` (lines 368-375): line through the surface
center with slope `Math.tan( tiltAngle )`. -/
def getSurfaceYValue (M : JsMath) (p : Plank) (xValue : ℚ) : ℚ :=
  let m := M.tan p.tiltAngle
  let b := (getPlankSurfaceCenter M p).y - m * (getPlankSurfaceCenter M p).x
  m * xValue + b

/-- `isPointAbovePlank( p )` (lines 377-380): inside the shape's horizontal
bounds and strictly above the surface line. -/
def isPointAbovePlank (M : JsMath) (p : Plank) (q : Vector2) : Bool :=
  decide (boundsMinX p.shapePoints ≤ q.x) && decide (q.x ≤ boundsMaxX p.shapePoints)
    && decide (getSurfaceYValue M p q.x < q.y)

/-- The loop of `getMassDistanceFromCenter` (lines 252-259).  The source's
guard is `i < this.massDistancePairs` — the bound is the array itself, not its
length.  JS coerces the array to a number: `0` when it is empty (and `0 < 0`
fails) and `NaN` otherwise (and every `NaN` comparison fails), so the guard is
false on entry and the body never runs.  The body is still translated
faithfully; `fuel` merely bounds the recursion (one more than the array length
suffices for any guard). -/
def getMDFCGo (pairs : List MassDistancePair) (id : ℕ) : ℕ → ℕ → ℚ
  | _, 0 => 0
  | i, fuel + 1 =>
    if jsLtNum (i : ℚ) (arrayAsNumber pairs) then
      match pairs.get? i with
      | some pr => if pr.mass == id then pr.distance else getMDFCGo pairs id (i + 1) fuel
      | Option.none => 0
    else 0

/-- `getMassDistanceFromCenter( mass )` (lines 252-259): scan the
mass-distance pairs for the mass, default 0. -/
def getMassDistanceFromCenter (p : Plank) (id : ℕ) : ℚ :=
  getMDFCGo p.massDistancePairs id 0 (p.massDistancePairs.length + 1)

/-- `isBalanced()` (lines 387-395): accumulate
`mass.mass * this.getMassDistanceFromCenter( mass )` over the masses on the
surface and compare against the `1E-6` tolerance.  (Inside the `forEach`
callback the source writes `this.`; the receiver is modelled as the plank.) -/
def isBalanced (p : Plank) : Bool :=
  let unCompensatedTorque :=
    p.massesOnSurface.foldl (fun t id => t + massValue p id * getMassDistanceFromCenter p id) 0
  decide (|unCompensatedTorque| < 1 / 1000000)

/-- The quantity the spec's balance clause names: the sum of
`massValue * distanceFromCenter` over all attached masses (stated with
`List.map`/`List.sum` for comparison with the source's fold). -/
def specTorqueSum (p : Plank) : ℚ :=
  (p.massesOnSurface.map (fun id => massValue p id * getMassDistanceFromCenter p id)).sum

/-- `updateNetTorque()` (lines 397-413).  The real torque computation (mass
torques and the plank's own contribution) is commented out in the source;
what runs is the "Temp for test and demo" alternating placeholder:
`this.currentNetTorque = 1 * this.turningRight ? 1 : -1;` — by precedence
`(1 * turningRight) ? 1 : -1`, i.e. `1` when `turningRight` (after the
possible flip), `-1` otherwise.  With any column present the torque stays 0. -/
def updateNetTorque (p : Plank) : Plank :=
  let p := { p with currentNetTorque := 0 }
  if p.columnState == strNone then
    let p :=
      if (p.turningRight && decide (p.maxTiltAngle - p.tiltAngle < 1 / 1000))
          || (!p.turningRight && decide (p.maxTiltAngle + p.tiltAngle < 1 / 1000)) then
        { p with turningRight := !p.turningRight }
      else p
    { p with currentNetTorque := if p.turningRight then 1 else -1 }
  else p

/-- `getTorqueDueToMasses()` (lines 415-422), translated with the source's
precedence: `torque += thisPlank.pivotPoint.x - mass.getPosition().x * mass.mass`
adds `pivot.x - (position.x * mass)`.  (Unused by `updateNetTorque`, whose
call to it is commented out.) -/
def getTorqueDueToMasses (p : Plank) : ℚ :=
  p.massesOnSurface.foldl (fun t id => t + (p.pivotPoint.x - (massPosition p id).x * massValue p id)) 0

/-- The mass-position loop of `updateMassPositions` (lines 198-206): for each
mass on the surface, set its position to the plank surface center plus the
vector `(distance-from-center, 0)` rotated by the tilt angle, and its rotation
to the tilt angle.  The loop mutates only the mass objects, never the plank's
own fields, so the per-iteration reads of `getPlankSurfaceCenter`,
`tiltAngle` and `massDistancePairs` are taken from the fixed plank `p`. -/
def massPositionsFold (M : JsMath) (p : Plank) : List ℕ → List Mass → List Mass
  | [], h => h
  | id :: rest, h =>
    massPositionsFold M p rest
      (h.map fun m =>
        if m.id == id then
          { m with
            position := vadd (getPlankSurfaceCenter M p)
              (rotated M ⟨getMassDistanceFromCenter p id, 0⟩ p.tiltAngle),
            rotationAngle := p.tiltAngle }
        else m)

/-- `updateMassPositions()` (lines 196-213).  After the mass loop the source
calls `update()` on each force vector, which refreshes derived display state
only (see `MassForceVector` above), leaving the plank state unchanged. -/
def updateMassPositions (M : JsMath) (p : Plank) : Plank :=
  { p with masses := massPositionsFold M p p.massesOnSurface p.masses }

/-- `updatePlank()` (lines 261-269).  The guard reads
`this.unrotatedShape.minY`: a `KITE.Shape` has no `minY` property (its bounds
object does), so the comparison is `>=` against `undefined` and the throw is
unreachable.  The shape becomes the unrotated shape rotated about the pivot.
`attachmentBarVector` reads `this.unrotatedShape.y` — also nonexistent — so
the computed `bottomCenterPoint` (a property distinct from
`bottomCenterLocation`, and read nowhere) is a NaN vector, modelled `none`. -/
def updatePlank (M : JsMath) (p : Plank) : Plank :=
  if jsGeUndefined p.pivotPoint.y then p
  else
    { p with
      shapePoints := p.unrotatedShapePoints.map (rotAround M p.tiltAngle p.pivotPoint),
      bottomCenterPoint := Option.none }

/-- `getSnapToLocations()` (lines 424-435): the candidate attachment points,
`(minX + (i+1) * INTER_SNAP_TO_MARKER_DISTANCE, maxY)` of the unrotated shape
bounds, rotated about the pivot by the tilt angle.  The source allocates
`new Array( NUM_SNAP_TO_LOCATIONS )` and fills it with `.add(...)` — a
Java-ism (JS arrays have no `add`); the collection building is modelled by its
evident denotation, the list of the `NUM_SNAP_TO_LOCATIONS` computed points in
loop order.  `rotationTransform.transformed( point )` applies the rotation
matrix to the point. -/
def getSnapToLocations (M : JsMath) (p : Plank) : List Vector2 :=
  (List.range NUM_SNAP_TO_LOCATIONS).map fun i =>
    rotAround M p.tiltAngle p.pivotPoint
      ⟨boundsMinX p.unrotatedShapePoints + ((i : ℚ) + 1) * INTER_SNAP_TO_MARKER_DISTANCE,
        boundsMaxY p.unrotatedShapePoints⟩

/-- The occupied-slot elimination loop of `getOpenMassDroppedLocation`
(lines 285-293): for every candidate (of a copy of the list) and every mass on
the surface, when the mass position is within a tenth of the inter-slot
distance of the candidate, the source executes
`candidateOpenLocations = _.without( candidateOpenLocations, this.massesOnSurface[j] )`
— removing the mass object (never an element of a list of `Vector2`), so the
candidate list is in fact never changed. -/
def occupiedFilter (M : JsMath) (p : Plank) (copyOf : List Vector2) (cands : List Vector2) : List Vector2 :=
  copyOf.foldl
    (fun cs loc =>
      p.massesOnSurface.foldl
        (fun cs2 id =>
          if jsDistance M (massPosition p id) loc < INTER_SNAP_TO_MARKER_DISTANCE / 10 then
            jsWithoutMass cs2 id
          else cs2)
        cs)
    cands

/-- The closest-location fold of `getOpenMassDroppedLocation` (lines 296-305):
among candidates within one inter-slot distance horizontally, keep the one of
minimal Euclidean distance to the drop point (first encountered wins ties). -/
def closestFold (M : JsMath) (pt : Vector2) (cands : List Vector2) : Option Vector2 :=
  cands.foldl
    (fun best c =>
      if |c.x - pt.x| ≤ INTER_SNAP_TO_MARKER_DISTANCE then
        match best with
        | Option.none => some c
        | some b => if jsDistance M c pt < jsDistance M b pt then some c else best
      else best)
    Option.none

/-- `getOpenMassDroppedLocation( p )` (lines 273-307).  When the number of
snap-to locations is odd the center one is removed with
`splice( NUM_SNAP_TO_LOCATIONS / 2, 1 )` (a fractional index, truncated by
`splice`). -/
def getOpenMassDroppedLocation (M : JsMath) (p : Plank) (pt : Vector2) : Option Vector2 :=
  let candidateOpenLocations := getSnapToLocations M p
  let candidateOpenLocations :=
    if NUM_SNAP_TO_LOCATIONS % 2 == 1 then
      (jsSplice candidateOpenLocations (jsToIntTrunc ((NUM_SNAP_TO_LOCATIONS : ℚ) / 2)) 1).1
    else candidateOpenLocations
  let copyOfCandidateLocations := candidateOpenLocations
  let candidateOpenLocations := occupiedFilter M p copyOfCandidateLocations candidateOpenLocations
  closestFold M pt candidateOpenLocations

/-- `addMassToSurface( mass )` (lines 151-181).  On success the mass is moved
to the resolved open location and marked on-plank; the distance from center is
written by `this.massDistancePairs[ mass ] = ...`, a bracket assignment whose
key is the mass object coerced to the string `"[object Object]"` — it creates
a string-keyed property on the array object and appends no array element.
Then a force vector is pushed, the user-controlled auto-detach observer is
registered (it never fires here: no modelled operation makes an attached mass
user-controlled), the mass id is pushed onto `massesOnSurface`, and mass
positions and net torque are refreshed.  On failure nothing is mutated and
`false` is returned. -/
def addMassToSurface (M : JsMath) (p : Plank) (id : ℕ) : Plank × Bool :=
  let closestOpenLocation := getOpenMassDroppedLocation M p (massPosition p id)
  match closestOpenLocation with
  | some loc =>
    if isPointAbovePlank M p (getMiddlePoint p id) then
      let p := updateMass p id (fun m => { m with position := loc, onPlank := true })
      let center := getPlankSurfaceCenter M p
      let d := jsDistance M center (massPosition p id) * (if center.x < (massPosition p id).x then 1 else -1)
      let p := { p with massDistanceObjProps := setProp p.massDistanceObjProps strObjectKey d }
      let p := { p with forceVectors := p.forceVectors ++ [MassForceVector.mk id] }
      let p := { p with massesOnSurface := p.massesOnSurface ++ [id] }
      let p := updateMassPositions M p
      let p := updateNetTorque p
      (p, true)
    else (p, false)
  | Option.none => (p, false)

/-- `addMassToSurfaceAt( mass, distanceFromCenter )` (lines 184-194).  The
guard is `if ( distanceFromCenter <= PLANK_LENGTH / 2 ) throw ...` — as
written it throws for every distance at most half the plank length (the whole
valid range) and only passes for larger ones.  Past the guard the mass is
positioned just above the target point and `assert( isPointAbovePlank )` runs
before delegating to `addMassToSurface`. -/
def addMassToSurfaceAt (M : JsMath) (p : Plank) (id : ℕ) (distanceFromCenter : ℚ) :
    Except String (Plank × Bool) :=
  if distanceFromCenter ≤ PLANK_LENGTH / 2 then Except.error strInvalidDistance
  else
    let vectorToLocation := vadd (getPlankSurfaceCenter M p) (rotated M ⟨distanceFromCenter, 0⟩ p.tiltAngle)
    let p := updateMass p id (fun m => { m with position := ⟨vectorToLocation.x, vectorToLocation.y + 1 / 100⟩ })
    if isPointAbovePlank M p (massPosition p id) then Except.ok (addMassToSurface M p id)
    else Except.error strAssertAbovePlank

/-- The force-vector removal loop of `removeMassFromSurface` (lines 233-238):
`for ( j = 0; j < this.massDistancePairs.length; j++ )` — the bound is the
(already updated) mass-distance array, not the force-vector array.  Indexing
`this.forceVectors[ j ]` beyond its length would dereference `undefined`
(never reached from states the public operations produce, where the pairs
array is empty).  The matching vector, when found, is spliced out in place. -/
def fvRemoveLoop (p : Plank) (id : ℕ) : ℕ → ℕ → Except String Plank
  | _, 0 => Except.ok p
  | j, fuel + 1 =>
    if j < p.massDistancePairs.length then
      match p.forceVectors.get? j with
      | some fv =>
        if fv.mass == id then Except.ok { p with forceVectors := (jsSplice p.forceVectors (j : ℤ) 1).1 }
        else fvRemoveLoop p id (j + 1) fuel
      | Option.none => Except.error strUndefinedMass
    else Except.ok p

/-- `removeMassFromSurface( mass )` (lines 215-242).  Line 218 is
`this.massesOnSurface = this.massesOnSurface.splice( indexOf( mass ), 1 )`:
`splice` removes one element in place but RETURNS the removed elements, and
the assignment replaces the array with that return value — so the list
becomes the single removed element (and, for an unattached mass, index `-1`
removes the LAST element).  The mass-distance loop has the same
assign-the-splice-result pattern.  Then the mass's rotation and on-plank flag
are reset and the force-vector loop and net torque update run. -/
def removeMassFromSurface (p : Plank) (id : ℕ) : Except String Plank :=
  let p := { p with massesOnSurface := (jsSplice p.massesOnSurface (jsIndexOf p.massesOnSurface id) 1).2 }
  let p :=
    match p.massDistancePairs.findIdx? (fun pr => pr.mass == id) with
    | some i => { p with massDistancePairs := (jsSplice p.massDistancePairs (i : ℤ) 1).2 }
    | Option.none => p
  let p := updateMass p id (fun m => { m with rotationAngle := 0, onPlank := false })
  match fvRemoveLoop p id 0 (p.massDistancePairs.length + 1) with
  | Except.ok p => Except.ok (updateNetTorque p)
  | Except.error e => Except.error e

/-- `removeAllMasses()` (lines 244-250): iterates a copy of the masses on the
surface calling `thisPlank.removeMass( mass )` — a method that does not exist
on `Plank` (the removal method is `removeMassFromSurface`), so the first
iteration throws a `TypeError`; on an empty plank the loop body never runs
and the call is a no-op. -/
def removeAllMasses (p : Plank) : Except String Plank :=
  match p.massesOnSurface with
  | [] => Except.ok p
  | _ :: _ => Except.error strNoRemoveMass

/-- `forceAngle( angle )` (lines 325-330). -/
def forceAngle (M : JsMath) (p : Plank) (angle : ℚ) : Plank :=
  updateMassPositions M (updatePlank M { p with angularVelocity := 0, tiltAngle := angle })

/-- `forceToLevelAndStill()` (lines 313-315). -/
def forceToLevelAndStill (M : JsMath) (p : Plank) : Plank := forceAngle M p 0

/-- `forceToMaxAndStill()` (lines 321-323). -/
def forceToMaxAndStill (M : JsMath) (p : Plank) : Plank := forceAngle M p p.maxTiltAngle

/-- The candidate tilt angle a non-user-controlled `step` computes before the
limit checks: the current angle plus the thresholded updated angular velocity
times `dt` (lines 111-125, before line 126). -/
def stepCandidateAngle (p : Plank) (dt : ℚ) : ℚ :=
  let p := updateNetTorque p
  let aa0 := p.currentNetTorque / MOMENT_OF_INERTIA
  let aa := if 1 / 100000 < |aa0| then aa0 else 0
  let av0 := p.angularVelocity + aa
  let av := if 1 / 100000 < |av0| then av0 else 0
  p.tiltAngle + av * dt

/-- The body of `step` for a non-user-controlled plank (lines 110-147). -/
def stepCore (M : JsMath) (p : Plank) (dt : ℚ) : Plank :=
  let p := updateNetTorque p
  let aa0 := p.currentNetTorque / MOMENT_OF_INERTIA
  let aa := if 1 / 100000 < |aa0| then aa0 else 0
  let av0 := p.angularVelocity + aa
  let av := if 1 / 100000 < |av0| then av0 else 0
  let p := { p with angularVelocity := av }
  let previousTiltAngle := p.tiltAngle
  let ta := p.tiltAngle + av * dt
  let p :=
    if p.maxTiltAngle < |ta| then
      { p with tiltAngle := p.maxTiltAngle * (if ta < 0 then -1 else 1), angularVelocity := 0 }
    else if |ta| < 1 / 10000 then { p with tiltAngle := 0 }
    else { p with tiltAngle := ta }
  if p.tiltAngle ≠ previousTiltAngle then updateMassPositions M (updatePlank M p) else p

/-- `step( dt )` (lines 108-148): a no-op when the plank is user-controlled. -/
def step (M : JsMath) (p : Plank) (dt : ℚ) : Plank :=
  if p.userControlled then p else stepCore M p dt

/-- The plank outline built by the constructor (lines 38-46): the six corner
moves of the `KITE.Shape`, translated to the initial location. -/
def initialShapePoints (location : Vector2) : List Vector2 :=
  [⟨location.x, location.y⟩,
   ⟨location.x + PLANK_LENGTH / 2, location.y⟩,
   ⟨location.x + PLANK_LENGTH / 2, location.y + PLANK_THICKNESS⟩,
   ⟨location.x, location.y + PLANK_THICKNESS⟩,
   ⟨location.x - PLANK_LENGTH / 2, location.y + PLANK_THICKNESS⟩,
   ⟨location.x - PLANK_LENGTH / 2, location.y⟩,
   ⟨location.x, location.y⟩]

/-- The `Plank` constructor (lines 34-103), over an ambient heap of mass
objects.  `maxTiltAngle = Math.asin( location.y / ( PLANK_LENGTH / 2 ) )`. -/
def initialPlank (M : JsMath) (location pivotPoint : Vector2) (columnState : String)
    (masses : List Mass) : Plank :=
  { bottomCenterLocation := location
    tiltAngle := 0
    userControlled := false
    pivotPoint := pivotPoint
    columnState := columnState
    angularVelocity := 0
    currentNetTorque := 0
    maxTiltAngle := M.asin (location.y / (PLANK_LENGTH / 2))
    massesOnSurface := []
    forceVectors := []
    massDistancePairs := []
    massDistanceObjProps := []
    unrotatedShapePoints := initialShapePoints location
    shapePoints := initialShapePoints location
    bottomCenterPoint := Option.none
    turningRight := true
    masses := masses }

-- Concrete fixtures for evaluations and witnesses.

def strDouble : String := "doubleColumns"

/-- A concrete instantiation of the transcendental functions, used for closed
evaluations: the only facts about them a scenario relies on (stated as
hypotheses where a theorem needs them) are `sin 0 = 0`, `cos 0 = 1`,
`tan 0 = 0`, `sqrt 0 = 0` and positivity/monotonicity of `sqrt` on the
concrete squared distances that get compared. -/
def Mtest : JsMath :=
  { sin := fun _ => 0
    cos := fun _ => 1
    tan := fun _ => 0
    asin := fun q => q
    sqrt := fun q => q }

def loc0 : Vector2 := ⟨0, 3 / 4⟩

def pivot0 : Vector2 := ⟨0, 1⟩

/-- A 5 kg mass dropped exactly at the snap-to location half a meter right of
center (surface height `3/4 + 1/20 = 4/5`). -/
def m1 : Mass := ⟨1, 5, ⟨1 / 2, 4 / 5⟩, 0, false, false, 1⟩

/-- A 5 kg mass dropped exactly at the snap-to location half a meter left of
center. -/
def m2 : Mass := ⟨2, 5, ⟨-1 / 2, 4 / 5⟩, 0, false, false, 1⟩

/-- A mass that is never attached (it idles away from the plank, with a
nonzero rotation angle so that mutations of it are visible). -/
def m3 : Mass := ⟨3, 5, ⟨3, 3⟩, 7, false, false, 1⟩

/-- A freshly constructed plank with both support columns present and the
three mass objects in scope. -/
def w0 : Plank := initialPlank Mtest loc0 pivot0 strDouble [m1, m2, m3]

/-- `w0` after `addMassToSurface` of `m1`. -/
def w1 : Plank := (addMassToSurface Mtest w0 1).1

/-- `w1` after `addMassToSurface` of `m2`. -/
def w2 : Plank := (addMassToSurface Mtest w1 2).1

/-- The successful branch of an exception-modelled operation, when any. -/
def exOk : Except String α → Option α
  | Except.ok a => some a
  | Except.error _ => Option.none

/-- The thrown error of an exception-modelled operation, when any. -/
def exErr : Except String α → Option String
  | Except.ok _ => Option.none
  | Except.error e => some e

/-- Stated from the spec's torque rule, for comparison with the code: with no
support columns the net torque is the sum over attached masses of
`massValue * signedDistanceFromCenter` (the recorded distances) plus the
plank's own self-righting contribution, its mass acting at the offset between
pivot and plank center. -/
def specNetTorque (p : Plank) : ℚ :=
  (p.massDistancePairs.map (fun pr => massValue p pr.mass * pr.distance)).sum
    + (p.pivotPoint.x - p.bottomCenterLocation.x) * PLANK_MASS

/-- The concrete scenario of the spec's balance test: plank with no support
columns, a 5 kg mass half a meter left of center and a 5 kg mass half a meter
right of center (their signed distances recorded in the mass-distance pairs,
as the spec's data model prescribes). -/
def scenario1 : Plank :=
  { initialPlank Mtest loc0 pivot0 strNone
      [⟨1, 5, ⟨-1 / 2, 4 / 5⟩, 0, true, false, 1⟩, ⟨2, 5, ⟨1 / 2, 4 / 5⟩, 0, true, false, 1⟩] with
    massesOnSurface := [1, 2]
    forceVectors := [MassForceVector.mk 1, MassForceVector.mk 2]
    massDistancePairs := [MassDistancePair.mk 1 (-1 / 2), MassDistancePair.mk 2 (1 / 2)] }

/-- A plank spinning fast enough that one `step` of `dt = 1` overshoots the
tilt limit (columns present, so the demo torque stays 0 and the angular
velocity is untouched). -/
def pClamp : Plank :=
  { initialPlank Mtest loc0 pivot0 strDouble [] with
    angularVelocity := 10
    maxTiltAngle := 1 }

-- Helper lemmas.

theorem getMDFC_zero (p : Plank) (id : ℕ) : getMassDistanceFromCenter p id = 0 := by
  unfold getMassDistanceFromCenter getMDFCGo
  cases h : p.massDistancePairs with
  | nil => simp [jsLtNum, arrayAsNumber]
  | cons a l => simp [jsLtNum, arrayAsNumber]

theorem rotated_zero (M : JsMath) (θ : ℚ) : rotated M ⟨0, 0⟩ θ = ⟨0, 0⟩ := by
  simp [rotated]

theorem vadd_zero_right (v : Vector2) : vadd v ⟨0, 0⟩ = v := by
  cases v; simp [vadd]

theorem uNT_tiltAngle (p : Plank) : (updateNetTorque p).tiltAngle = p.tiltAngle := by
  unfold updateNetTorque; dsimp only; split_ifs <;> rfl

theorem uNT_maxTiltAngle (p : Plank) : (updateNetTorque p).maxTiltAngle = p.maxTiltAngle := by
  unfold updateNetTorque; dsimp only; split_ifs <;> rfl

theorem uNT_angularVelocity (p : Plank) : (updateNetTorque p).angularVelocity = p.angularVelocity := by
  unfold updateNetTorque; dsimp only; split_ifs <;> rfl

theorem uNT_userControlled (p : Plank) : (updateNetTorque p).userControlled = p.userControlled := by
  unfold updateNetTorque; dsimp only; split_ifs <;> rfl

theorem uNT_massDistancePairs (p : Plank) : (updateNetTorque p).massDistancePairs = p.massDistancePairs := by
  unfold updateNetTorque; dsimp only; split_ifs <;> rfl

theorem uP_tiltAngle (M : JsMath) (p : Plank) : (updatePlank M p).tiltAngle = p.tiltAngle := by
  unfold updatePlank; split <;> rfl

theorem uP_maxTiltAngle (M : JsMath) (p : Plank) : (updatePlank M p).maxTiltAngle = p.maxTiltAngle := by
  unfold updatePlank; split <;> rfl

theorem uP_angularVelocity (M : JsMath) (p : Plank) : (updatePlank M p).angularVelocity = p.angularVelocity := by
  unfold updatePlank; split <;> rfl

theorem uP_massDistancePairs (M : JsMath) (p : Plank) : (updatePlank M p).massDistancePairs = p.massDistancePairs := by
  unfold updatePlank; split <;> rfl

theorem uMP_tiltAngle (M : JsMath) (p : Plank) : (updateMassPositions M p).tiltAngle = p.tiltAngle := rfl

theorem uMP_maxTiltAngle (M : JsMath) (p : Plank) : (updateMassPositions M p).maxTiltAngle = p.maxTiltAngle := rfl

theorem uMP_angularVelocity (M : JsMath) (p : Plank) : (updateMassPositions M p).angularVelocity = p.angularVelocity := rfl

theorem uMP_massDistancePairs (M : JsMath) (p : Plank) : (updateMassPositions M p).massDistancePairs = p.massDistancePairs := rfl

theorem updateMass_massDistancePairs (p : Plank) (id : ℕ) (f : Mass → Mass) :
    (updateMass p id f).massDistancePairs = p.massDistancePairs := rfl

theorem mem_massPositionsFold_not_mem (M : JsMath) (p : Plank) :
    ∀ (l : List ℕ) (h : List Mass) (m : Mass), m ∈ massPositionsFold M p l h → m.id ∉ l → m ∈ h := by
  intro l
  induction l with
  | nil => intro h m hm _; simpa [massPositionsFold] using hm
  | cons a rest ih =>
    intro h m hm hnot
    have hrest : m.id ∉ rest := fun hr => hnot (List.mem_cons_of_mem _ hr)
    have hma : m.id ≠ a := fun he => hnot (he ▸ List.mem_cons_self a rest)
    have hm2 : m ∈ h.map fun m0 =>
        if m0.id == a then
          { m0 with
            position := vadd (getPlankSurfaceCenter M p)
              (rotated M ⟨getMassDistanceFromCenter p a, 0⟩ p.tiltAngle),
            rotationAngle := p.tiltAngle }
        else m0 := ih _ m hm hrest
    rcases List.mem_map.mp hm2 with ⟨m0, hm0, heq⟩
    by_cases hid : m0.id = a
    · exfalso
      apply hma
      have : m.id = m0.id := by
        subst heq; simp [hid]
      rw [this, hid]
    · have hmm : m = m0 := by simpa [hid] using heq.symm
      rw [hmm]; exact hm0

theorem mem_massPositionsFold_center (M : JsMath) (p : Plank) :
    ∀ (l : List ℕ) (h : List Mass) (m : Mass), m ∈ massPositionsFold M p l h → m.id ∈ l →
      m.position = getPlankSurfaceCenter M p ∧ m.rotationAngle = p.tiltAngle := by
  intro l
  induction l with
  | nil => intro h m _ hin; exact absurd hin (List.not_mem_nil _)
  | cons a rest ih =>
    intro h m hm hin
    by_cases hr : m.id ∈ rest
    · exact ih _ m hm hr
    · have hma : m.id = a := by
        rcases List.mem_cons.mp hin with h1 | h2
        · exact h1
        · exact absurd h2 hr
      have hm2 := mem_massPositionsFold_not_mem M p rest _ m hm hr
      rcases List.mem_map.mp hm2 with ⟨m0, hm0, heq⟩
      by_cases hid : m0.id = a
      · constructor
        · rw [← heq]
          simp [hid, getMDFC_zero, rotated_zero, vadd_zero_right]
        · rw [← heq]; simp [hid]
      · exfalso
        apply hid
        have : m = m0 := by simpa [hid] using heq.symm
        rw [← this, hma]

theorem occupiedFilterInner_id (M : JsMath) (p : Plank) (loc : Vector2) :
    ∀ (l : List ℕ) (cs : List Vector2),
      l.foldl
        (fun cs2 id =>
          if jsDistance M (massPosition p id) loc < INTER_SNAP_TO_MARKER_DISTANCE / 10 then
            jsWithoutMass cs2 id
          else cs2)
        cs = cs := by
  intro l
  induction l with
  | nil => intro cs; rfl
  | cons a rest ih =>
    intro cs
    simp only [List.foldl_cons]
    rw [← ih cs]
    congr 1
    by_cases hd : jsDistance M (massPosition p a) loc < INTER_SNAP_TO_MARKER_DISTANCE / 10 <;>
      simp [hd, jsWithoutMass]

theorem occupiedFilter_id (M : JsMath) (p : Plank) :
    ∀ (copyOf cands : List Vector2), occupiedFilter M p copyOf cands = cands := by
  intro copyOf
  induction copyOf with
  | nil => intro cands; rfl
  | cons a rest ih =>
    intro cands
    unfold occupiedFilter at ih ⊢
    simp only [List.foldl_cons]
    rw [occupiedFilterInner_id M p a, ih cands]

theorem foldl_add_eq_sum (f : ℕ → ℚ) :
    ∀ (l : List ℕ) (a : ℚ), l.foldl (fun t x => t + f x) a = a + (l.map f).sum := by
  intro l
  induction l with
  | nil => intro a; simp
  | cons b rest ih =>
    intro a
    simp only [List.foldl_cons, List.map_cons, List.sum_cons, ih (a + f b)]
    ring

theorem step_maxTiltAngle (M : JsMath) (p : Plank) (dt : ℚ) :
    (step M p dt).maxTiltAngle = p.maxTiltAngle := by
  unfold step stepCore
  dsimp only
  split_ifs <;>
    simp [uMP_maxTiltAngle, uP_maxTiltAngle, uNT_maxTiltAngle]

theorem stepCore_tilt_le (M : JsMath) (p : Plank) (dt : ℚ) (hmax : 0 ≤ p.maxTiltAngle) :
    |(stepCore M p dt).tiltAngle| ≤ p.maxTiltAngle := by
  unfold stepCore
  dsimp only
  rw [← uNT_maxTiltAngle p] at hmax ⊢
  set q := updateNetTorque p
  split_ifs
  all_goals simp only [uMP_tiltAngle, uP_tiltAngle]
  all_goals simp only [zero_mul, add_zero] at *
  all_goals first
    | simpa using hmax
    | simp [abs_mul, abs_of_nonneg hmax]
    | exact le_of_not_lt (by assumption)

theorem stepCore_clamp (M : JsMath) (p : Plank) (dt : ℚ)
    (hcl : p.maxTiltAngle < |stepCandidateAngle p dt|) :
    (stepCore M p dt).tiltAngle = p.maxTiltAngle * (if stepCandidateAngle p dt < 0 then -1 else 1)
      ∧ (stepCore M p dt).angularVelocity = 0 := by
  unfold stepCandidateAngle at hcl ⊢
  unfold stepCore
  dsimp only at hcl ⊢
  rw [← uNT_maxTiltAngle p] at hcl
  split_ifs at hcl ⊢
  all_goals constructor <;>
    simp [uMP_tiltAngle, uP_tiltAngle, uMP_angularVelocity, uP_angularVelocity, uNT_maxTiltAngle]

theorem step_tilt_le (M : JsMath) (p : Plank) (dt : ℚ) (hmax : 0 ≤ p.maxTiltAngle)
    (hinv : |p.tiltAngle| ≤ p.maxTiltAngle) : |(step M p dt).tiltAngle| ≤ p.maxTiltAngle := by
  unfold step
  split_ifs with h
  · exact hinv
  · exact stepCore_tilt_le M p dt hmax

theorem step_tilt_establish (M : JsMath) (p : Plank) (dt : ℚ) (huc : p.userControlled = false)
    (hmax : 0 ≤ p.maxTiltAngle) : |(step M p dt).tiltAngle| ≤ p.maxTiltAngle := by
  unfold step
  rw [huc]
  exact stepCore_tilt_le M p dt hmax

theorem steps_fold_tilt_le (M : JsMath) :
    ∀ (dts : List ℚ) (p : Plank), 0 ≤ p.maxTiltAngle → |p.tiltAngle| ≤ p.maxTiltAngle →
      |(dts.foldl (step M) p).tiltAngle| ≤ p.maxTiltAngle := by
  intro dts
  induction dts with
  | nil => intro p _ hinv; simpa using hinv
  | cons dt rest ih =>
    intro p hmax hinv
    simp only [List.foldl_cons]
    have hmax2 : 0 ≤ (step M p dt).maxTiltAngle := by rw [step_maxTiltAngle]; exact hmax
    have hinv2 : |(step M p dt).tiltAngle| ≤ (step M p dt).maxTiltAngle := by
      rw [step_maxTiltAngle]; exact step_tilt_le M p dt hmax hinv
    have := ih (step M p dt) hmax2 hinv2
    rwa [step_maxTiltAngle] at this

theorem addMass_massDistancePairs (M : JsMath) (p : Plank) (id : ℕ) :
    ((addMassToSurface M p id).1).massDistancePairs = p.massDistancePairs := by
  unfold addMassToSurface
  dsimp only
  cases getOpenMassDroppedLocation M p (massPosition p id) with
  | none => rfl
  | some loc =>
    split_ifs with h
    · simp [uNT_massDistancePairs, uMP_massDistancePairs, updateMass_massDistancePairs]
    · rfl

-- Claim theorems.

/-- C1: the claim says that with no support columns `updateNetTorque` (as run
by `step`) yields the sum of `massValue * signedDistanceFromCenter` plus the
plank's own contribution — 0 for the balanced 5 kg / ±0.5 m scenario — and
that `step` then leaves `tiltAngle` at 0.  The code instead runs the
"Temp for test and demo" placeholder: in the scenario the spec-side net torque
is 0, but the code sets `currentNetTorque` to 1 and one `step` of `dt = 1`
moves `tiltAngle` from 0 to `64/8101`. -/
theorem C1_demo_torque_instead_of_mass_torque :
    scenario1.columnState = strNone
      ∧ specNetTorque scenario1 = 0
      ∧ scenario1.tiltAngle = 0
      ∧ (step Mtest scenario1 1).currentNetTorque = 1
      ∧ (step Mtest scenario1 1).tiltAngle = 64 / 8101
      ∧ ((64 : ℚ) / 8101 ≠ 0) := by decide

/-- C2: for every plank state and every sequence of `step(dt)` calls with
arbitrary `dt`, `|tiltAngle| <= maxTiltAngle` holds after every step call
(established by any non-user-controlled step, and preserved from any state
already satisfying it, along any step sequence), and when the integrated
candidate angle exceeds the tilt limit, `tiltAngle` is clamped to
`±maxTiltAngle` with the sign of the overflow direction and `angularVelocity`
is forced to 0. -/
theorem C2_tilt_angle_clamped :
    (∀ (M : JsMath) (p : Plank) (dt : ℚ), p.userControlled = false → 0 ≤ p.maxTiltAngle →
        |(step M p dt).tiltAngle| ≤ p.maxTiltAngle)
    ∧ (∀ (M : JsMath) (p : Plank) (dt : ℚ), 0 ≤ p.maxTiltAngle → |p.tiltAngle| ≤ p.maxTiltAngle →
        |(step M p dt).tiltAngle| ≤ p.maxTiltAngle)
    ∧ (∀ (M : JsMath) (p : Plank) (dt : ℚ), p.userControlled = false →
        p.maxTiltAngle < |stepCandidateAngle p dt| →
        (step M p dt).tiltAngle = p.maxTiltAngle * (if stepCandidateAngle p dt < 0 then -1 else 1)
          ∧ (step M p dt).angularVelocity = 0)
    ∧ (∀ (M : JsMath) (p : Plank) (dts : List ℚ), 0 ≤ p.maxTiltAngle →
        |p.tiltAngle| ≤ p.maxTiltAngle → |(dts.foldl (step M) p).tiltAngle| ≤ p.maxTiltAngle) := by
  refine ⟨step_tilt_establish, step_tilt_le, ?_,
    fun M p dts hmax hinv => steps_fold_tilt_le M dts p hmax hinv⟩
  intro M p dt huc hcl
  have hs : step M p dt = stepCore M p dt := by unfold step; rw [huc]; simp
  rw [hs]
  exact stepCore_clamp M p dt hcl

/-- Witness for C2 at a concrete overshooting plank: one `step` of `dt = 1`
from angular velocity 10 clamps the tilt to the limit and zeroes the
velocity, and a following step sequence stays within the limit. -/
theorem C2_tilt_angle_clamped_witness :
    |(step Mtest pClamp 1).tiltAngle| ≤ pClamp.maxTiltAngle
      ∧ (step Mtest pClamp 1).tiltAngle
          = pClamp.maxTiltAngle * (if stepCandidateAngle pClamp 1 < 0 then -1 else 1)
      ∧ (step Mtest pClamp 1).angularVelocity = 0
      ∧ |(([1, 1, 1] : List ℚ).foldl (step Mtest) pClamp).tiltAngle| ≤ pClamp.maxTiltAngle :=
  ⟨C2_tilt_angle_clamped.1 Mtest pClamp 1 (by decide) (by decide),
   (C2_tilt_angle_clamped.2.2.1 Mtest pClamp 1 (by decide) (by decide)).1,
   (C2_tilt_angle_clamped.2.2.1 Mtest pClamp 1 (by decide) (by decide)).2,
   C2_tilt_angle_clamped.2.2.2 Mtest pClamp [1, 1, 1] (by decide) (by decide)⟩

/-- C3: the claim says every attached mass has a corresponding mass-distance
entry and force vector.  After one successful attach on a fresh plank the
attached-mass list and force-vector list each hold one element, but the
mass-distance pairs array is still empty — the distance went into a
string-keyed property of the array object instead. -/
theorem C3_attach_misses_distance_record :
    (addMassToSurface Mtest w0 1).2 = true
      ∧ w1.massesOnSurface = [1]
      ∧ w1.forceVectors = [MassForceVector.mk 1]
      ∧ w1.massDistancePairs = []
      ∧ w1.massDistanceObjProps = [(strObjectKey, 1 / 4)] := by decide

/-- C4: the claim says `addMassToSurfaceAt(mass, d)` fails exactly when
`|d| > length/2`.  The code's guard is inverted and unsigned: it throws the
"invalid distance" error for `d = 1/2` and `d = -1/2` (both valid per the
claim, `|d| ≤ 2.25`), while `d = 3 > 2.25` (invalid per the claim) passes the
guard and only dies on the is-above-plank assertion. -/
theorem C4_addMassToSurfaceAt_inverted_guard :
    exErr (addMassToSurfaceAt Mtest w0 3 (1 / 2)) = some strInvalidDistance
      ∧ exErr (addMassToSurfaceAt Mtest w0 3 (-1 / 2)) = some strInvalidDistance
      ∧ |(1 : ℚ) / 2| ≤ PLANK_LENGTH / 2
      ∧ exErr (addMassToSurfaceAt Mtest w0 3 3) = some strAssertAbovePlank
      ∧ PLANK_LENGTH / 2 < (3 : ℚ) := by decide

/-- C5: the claim says removal of an attached mass removes exactly that mass
and removal of an unattached mass is a no-op.  On a plank carrying masses 1
and 2, removing mass 1 leaves the surface list equal to `[1]` — the removed
mass itself, with mass 2 dropped (`splice`'s return value was assigned back)
— and the force vectors are not touched; removing the unattached mass 3
leaves `[2]` (index `-1` spliced away the last element) and still resets
mass 3's rotation angle (7 before) and on-plank flag. -/
theorem C5_remove_mass_splice_misuse :
    w2.massesOnSurface = [1, 2]
      ∧ ((exOk (removeMassFromSurface w2 1)).map Plank.massesOnSurface) = some [1]
      ∧ ((exOk (removeMassFromSurface w2 1)).map Plank.forceVectors)
          = some [MassForceVector.mk 1, MassForceVector.mk 2]
      ∧ ((exOk (removeMassFromSurface w2 3)).map Plank.massesOnSurface) = some [2]
      ∧ ((exOk (removeMassFromSurface w2 3)).map (fun p => massById p 3))
          = some (some ⟨3, 5, ⟨3, 3⟩, 0, false, false, 1⟩) := by decide

/-- C6: the claim says slot resolution never returns an occupied slot.  After
attaching mass 1 (dropped at the slot `(1/2, 4/5)`), resolving a second drop
at the same point returns the same slot again — the occupied-slot filter
removes the mass object from the candidate list (never an element of it), so
it removes nothing, for any plank state. -/
theorem C6_slot_resolution_returns_occupied_slot :
    getOpenMassDroppedLocation Mtest w0 ⟨1 / 2, 4 / 5⟩ = some ⟨1 / 2, 4 / 5⟩
      ∧ (addMassToSurface Mtest w0 1).2 = true
      ∧ getOpenMassDroppedLocation Mtest w1 ⟨1 / 2, 4 / 5⟩ = some ⟨1 / 2, 4 / 5⟩
      ∧ (∀ (M : JsMath) (p : Plank) (copyOf cands : List Vector2),
          occupiedFilter M p copyOf cands = cands) :=
  ⟨by decide, by decide, by decide, fun M p copyOf cands => occupiedFilter_id M p copyOf cands⟩

/-- C7: `isBalanced()` is true exactly when the absolute value of the sum of
`massValue * distanceFromCenter` (the recorded per-mass distances, as read by
`getMassDistanceFromCenter`) over all attached masses is below `1e-6`; it
reads neither the tilt angle nor the column state, and on an empty plank it
is true. -/
theorem C7_isBalanced_iff_recorded_torque :
    (∀ p : Plank, isBalanced p = true ↔ |specTorqueSum p| < 1 / 1000000)
    ∧ (∀ (p : Plank) (θ : ℚ) (cs : String),
        isBalanced { p with tiltAngle := θ, columnState := cs } = isBalanced p)
    ∧ (∀ p : Plank, p.massesOnSurface = [] → isBalanced p = true) := by
  refine ⟨?_, ?_, ?_⟩
  · intro p
    unfold isBalanced specTorqueSum
    dsimp only
    rw [foldl_add_eq_sum]
    simp
  · intro p θ cs
    rfl
  · intro p h
    simp [isBalanced, h]

/-- Witness for C7 on the fresh empty plank. -/
theorem C7_isBalanced_iff_recorded_torque_witness : isBalanced w0 = true :=
  C7_isBalanced_iff_recorded_torque.2.2 w0 (by decide)

/-- C8: the claim says `removeAllMasses` empties all three collections for
any number of attached masses and is a no-op on an empty plank.  The code
calls the nonexistent method `removeMass`, so it only survives the empty
case; with masses attached the first iteration throws a `TypeError`. -/
theorem C8_removeAllMasses_typeerror :
    exOk (removeAllMasses w0) = some w0
      ∧ w0.massesOnSurface = []
      ∧ w2.massesOnSurface = [1, 2]
      ∧ exErr (removeAllMasses w2) = some strNoRemoveMass := by decide

/-- C9: the claim says a successful `addMassToSurface` moves the mass to the
resolved slot.  The attach of mass 1 succeeds (its middle point is above the
plank and the slot `(1/2, 4/5)` is resolved), but the call's own
`updateMassPositions` then relocates the mass to the plank surface center
`(0, 4/5)`, not the resolved slot. -/
theorem C9_attach_success_not_at_resolved_slot :
    getOpenMassDroppedLocation Mtest w0 (massPosition w0 1) = some ⟨1 / 2, 4 / 5⟩
      ∧ isPointAbovePlank Mtest w0 (getMiddlePoint w0 1) = true
      ∧ (addMassToSurface Mtest w0 1).2 = true
      ∧ massPosition w1 1 = getPlankSurfaceCenter Mtest w1
      ∧ massPosition w1 1 = ⟨0, 4 / 5⟩
      ∧ ((⟨0, 4 / 5⟩ : Vector2) ≠ ⟨1 / 2, 4 / 5⟩) := by decide

/-- C10: `getMassDistanceFromCenter` returns 0 for every plank state and
every mass (the loop bound compares the index with the array itself, which
coerces to 0 or NaN); `addMassToSurface` never appends to the mass-distance
pairs array (the write is under the stringified mass as a property key); and
consequently `updateMassPositions` places every attached mass at the plank
surface center. -/
theorem C10_mass_distance_always_zero :
    (∀ (p : Plank) (id : ℕ), getMassDistanceFromCenter p id = 0)
    ∧ (∀ (M : JsMath) (p : Plank) (id : ℕ),
        ((addMassToSurface M p id).1).massDistancePairs = p.massDistancePairs)
    ∧ (∀ (M : JsMath) (p : Plank) (m : Mass), m ∈ (updateMassPositions M p).masses →
        m.id ∈ p.massesOnSurface → m.position = getPlankSurfaceCenter M p) :=
  ⟨getMDFC_zero,
   addMass_massDistancePairs,
   fun M p m hm hid => (mem_massPositionsFold_center M p p.massesOnSurface p.masses m hm hid).1⟩

/-- Witness for C10: re-running `updateMassPositions` on the plank carrying
mass 1 keeps that mass exactly at the plank surface center. -/
theorem C10_mass_distance_always_zero_witness :
    (⟨1, 5, ⟨0, 4 / 5⟩, 0, true, false, 1⟩ : Mass).position = getPlankSurfaceCenter Mtest w1 :=
  C10_mass_distance_always_zero.2.2 Mtest w1 ⟨1, 5, ⟨0, 4 / 5⟩, 0, true, false, 1⟩
    (by decide) (by decide)
